import Mathlib

/-!
# Footer visibility controller of `assets/javascripts/debug-footer.js`

The file has three parts, one per script: the footer controller of `debug-footer.js`
(namespace `DebugFooter`), the homepage footer of `homepage-animations.js` (namespace
`HomepageAnimations`) and the class cleanup of `cleanup-animations.js` (namespace
`CleanupAnimations`).  The definitions of all three come first, the theorems after.

A shallow embedding of the scroll-driven footer controller.  The closure
variables of the `DOMContentLoaded` handler (`lastScrollTop`,
`isFooterVisible`, `scrollTimeout`, `ticking`) and the part of the browser
the controller reads or writes (the footer's inline `transform`, the class
list of `<body>`, the live timers, the scheduled animation-frame callbacks and
the console) form one record; every JavaScript function becomes a pure
function on that record.

Modelling conventions:
* scroll offsets and heights are integers (CSS pixels);
* a timer is a record of its handle and of the `currentScrollTop` captured by
  its callback; the 3000 ms delay is abstracted to an expiry event that may
  happen at any moment while the timer is live;
* `requestAnimationFrame` callbacks are counted, all of them being the same
  closure;
* a console entry keeps the level and the first argument of the call.
-/

namespace DebugFooter

/-! ## Constants -/

/-- The constant `scrollThreshold` (line 11). -/
def scrollThreshold : Int := 100

/-- The inline transform written by `showFooter`. -/
def shownTransform : String := "translateY(0)"

/-- The inline transform written by `hideFooter`, `resetFooter` and the initialisation. -/
def hiddenTransform : String := "translateY(200px)"

/-- The class toggled on `document.body`. -/
def markerClass : String := "footer-visible"

/-! ## Browser values -/

/-- The readings of `window` and `document.documentElement` used by one evaluation. -/
structure Window where
  pageYOffset : Int
  scrollTop : Int
  innerHeight : Int
  scrollHeight : Int
deriving DecidableEq, Repr

/-- The expression `window.pageYOffset || document.documentElement.scrollTop`:
a zero `pageYOffset` is falsy and gives way to `scrollTop`. -/
def currentScrollTop (w : Window) : Int :=
  if w.pageYOffset ≠ 0 then w.pageYOffset else w.scrollTop

/-- The function `Math.abs` on integers. -/
def mathAbs (x : Int) : Int := if x < 0 then -x else x

/-- Whether the second list is an initial segment of the first. -/
def startsWith : List Char → List Char → Bool
  | _, [] => true
  | [], _ :: _ => false
  | c :: cs, d :: ds => c == d && startsWith cs ds

/-- Whether the second list occurs contiguously in the first. -/
def includesChars : List Char → List Char → Bool
  | [], sub => startsWith [] sub
  | c :: cs, sub => startsWith (c :: cs) sub || includesChars cs sub

/-- The method `String.prototype.includes`. -/
def includes (s sub : String) : Bool := includesChars s.data sub.data

/-- The method `classList.add`: the token is appended unless already present. -/
def classListAdd (cs : List String) (c : String) : List String :=
  if c ∈ cs then cs else cs ++ [c]

/-- The method `classList.remove`: every occurrence of the token goes. -/
def classListRemove (cs : List String) (c : String) : List String :=
  cs.filter (fun d => d ≠ c)

/-- A live auto-hide timer: its handle and the `currentScrollTop` its callback closed over. -/
structure Timer where
  id : Nat
  currentScrollTop : Int
deriving DecidableEq, Repr

/-- Level of a console entry. -/
inductive Level where
  | log
  | error
deriving DecidableEq, Repr

/-- One console call: its level and its first argument. -/
structure Entry where
  level : Level
  text : String
deriving DecidableEq, Repr

/-! ## Controller state -/

/-- The closure variables of the controller together with the browser state it touches. -/
structure Controller where
  /-- Variable `lastScrollTop`. -/
  lastScrollTop : Int
  /-- Variable `isFooterVisible`. -/
  isFooterVisible : Bool
  /-- Variable `scrollTimeout`: `none` is `undefined`, otherwise the last handle stored. -/
  scrollTimeout : Option Nat
  /-- Variable `ticking`. -/
  ticking : Bool
  /-- Value of `footer.style.transform`. -/
  footerTransform : String
  /-- Whether the inline transform declaration carries the `important` priority. -/
  footerTransformImportant : Bool
  /-- Tokens of `document.body.classList`. -/
  bodyClasses : List String
  /-- Timers armed by `handleScroll` that have neither been cleared nor expired. -/
  timers : List Timer
  /-- The handle the next `setTimeout` will return. -/
  nextTimer : Nat
  /-- Number of scheduled animation-frame callbacks not yet run. -/
  frames : Nat
  /-- Console output, oldest first. -/
  console : List Entry
deriving DecidableEq, Repr

/-- The function `showFooter` (lines 33-40). -/
def showFooter (s : Controller) : Controller :=
  if !s.isFooterVisible then
    { s with
      footerTransform := shownTransform
      footerTransformImportant := false
      bodyClasses := classListAdd s.bodyClasses markerClass
      isFooterVisible := true
      console := s.console ++ [⟨Level.log, "Footer affiché"⟩] }
  else s

/-- The function `hideFooter` (lines 43-50). -/
def hideFooter (s : Controller) : Controller :=
  if s.isFooterVisible then
    { s with
      footerTransform := hiddenTransform
      footerTransformImportant := false
      bodyClasses := classListRemove s.bodyClasses markerClass
      isFooterVisible := false
      console := s.console ++ [⟨Level.log, "Footer caché"⟩] }
  else s

/-- The call `clearTimeout(h)`: the live timer with that handle, if any, is dropped. -/
def clearTimeout (s : Controller) (h : Option Nat) : Controller :=
  match h with
  | none => s
  | some i => { s with timers := s.timers.filter (fun t => t.id ≠ i) }

/-- The call `setTimeout(callback, 3000)` of `handleScroll`, with the result stored in
`scrollTimeout`; `captured` is the `currentScrollTop` the callback closes over. -/
def setTimeout (s : Controller) (captured : Int) : Controller :=
  { s with
    scrollTimeout := some s.nextTimer
    timers := s.timers ++ [⟨s.nextTimer, captured⟩]
    nextTimer := s.nextTimer + 1 }

/-- The body of the arrow function given to `setTimeout` (lines 75-79). -/
def timeoutCallback (s : Controller) (captured : Int) : Controller :=
  if s.isFooterVisible && decide (captured > scrollThreshold) then hideFooter s else s

/-- The function declared as `handleScroll` (lines 53-80), bound to
`originalHandleScroll` before the name is reassigned. -/
def originalHandleScroll (s : Controller) (w : Window) : Controller :=
  let cur := currentScrollTop w
  let scrollDifference := mathAbs (cur - s.lastScrollTop)
  if scrollDifference < 5 then s
  else
    let s1 :=
      if cur > s.lastScrollTop then
        if cur > scrollThreshold then hideFooter s else s
      else showFooter s
    let s2 := { s1 with lastScrollTop := cur }
    setTimeout (clearTimeout s2 s2.scrollTimeout) cur

/-- The function `checkBottomPage` (lines 101-110). -/
def checkBottomPage (s : Controller) (w : Window) : Controller :=
  if currentScrollTop w + w.innerHeight ≥ w.scrollHeight - 100 then showFooter s else s

/-- The function `handleScroll` after its reassignment (lines 113-117): one scroll evaluation. -/
def handleScroll (s : Controller) (w : Window) : Controller :=
  checkBottomPage (originalHandleScroll s w) w

/-- The function `requestScrollUpdate` (lines 84-92), the scroll listener. -/
def requestScrollUpdate (s : Controller) : Controller :=
  if !s.ticking then { s with frames := s.frames + 1, ticking := true } else s

/-- The arrow function given to `requestAnimationFrame` (lines 86-89). -/
def frameCallback (s : Controller) (w : Window) : Controller :=
  { handleScroll s w with ticking := false }

/-- The function `window.testFooter` (lines 120-126). -/
def testFooter (s : Controller) : Controller :=
  if s.isFooterVisible then hideFooter s else showFooter s

/-- The function `window.resetFooter` (lines 128-134). -/
def resetFooter (s : Controller) : Controller :=
  { s with
    footerTransform := hiddenTransform
    footerTransformImportant := false
    bodyClasses := classListRemove s.bodyClasses markerClass
    isFooterVisible := false
    lastScrollTop := 0
    console := s.console ++ [⟨Level.log, "Footer reset"⟩] }

/-! ## Initialisation -/

/-- The `.md-footer` element as the initialisation finds it. -/
structure Footer where
  /-- Inline `style.transform` before the script touches it. -/
  styleTransform : String
  /-- Priority of that inline declaration. -/
  styleTransformImportant : Bool
  /-- Value of `window.getComputedStyle(footer).transform`. -/
  computedTransform : String
deriving DecidableEq, Repr

/-- Console lines written before the 500 ms callback runs (lines 2 and 5). -/
def bootConsole : List Entry :=
  [⟨Level.log, "=== FOOTER ANIMATION START ==="⟩,
   ⟨Level.log, "DOM loaded - Initialisation de l\x27animation footer"⟩]

/-- The `if (footer)` branch of the initialisation callback (lines 18-139). -/
def initFooter (f : Footer) (bodyClasses : List String) : Controller :=
  let force := !includes f.computedTransform "200"
  { lastScrollTop := 0
    isFooterVisible := false
    scrollTimeout := none
    ticking := false
    footerTransform := if force then hiddenTransform else f.styleTransform
    footerTransformImportant := if force then true else f.styleTransformImportant
    bodyClasses := bodyClasses
    timers := []
    nextTimer := 0
    frames := 0
    console :=
      bootConsole ++
      [⟨Level.log, "Footer element:"⟩, ⟨Level.log, "Footer initialisé"⟩,
       ⟨Level.log, "Footer height:"⟩] ++
      (if force then [⟨Level.log, "Footer forcé en position cachée (200px)"⟩] else []) ++
      [⟨Level.log, "=== COMMANDES DISPONIBLES ==="⟩,
       ⟨Level.log, "testFooter() - Basculer la visibilité du footer"⟩,
       ⟨Level.log, "resetFooter() - Remettre le footer en état initial"⟩,
       ⟨Level.log, "=== ANIMATION FOOTER PRÊTE ==="⟩] }

/-! ## Events -/

/-- What can happen to an initialised controller. -/
inductive Event where
  /-- A `scroll` event on `window`: runs `requestScrollUpdate`. -/
  | scroll
  /-- The browser runs a scheduled animation-frame callback; `w` is what it reads. -/
  | frame (w : Window)
  /-- The live timer `t` expires. -/
  | timeout (t : Timer)
  /-- A `mouseenter` event on the footer. -/
  | mouseenter
  /-- A console call of `testFooter()`. -/
  | testFooter
  /-- A console call of `resetFooter()`. -/
  | resetFooter
deriving DecidableEq, Repr

/-- One event; an event that is not enabled (no scheduled frame, timer not live) changes nothing. -/
def step (s : Controller) : Event → Controller
  | Event.scroll => requestScrollUpdate s
  | Event.frame w =>
      if 0 < s.frames then frameCallback { s with frames := s.frames - 1 } w else s
  | Event.timeout t =>
      if t ∈ s.timers then
        timeoutCallback { s with timers := s.timers.erase t } t.currentScrollTop
      else s
  | Event.mouseenter => showFooter s
  | Event.testFooter => testFooter s
  | Event.resetFooter => resetFooter s

/-- A sequence of events, in order. -/
def run (s : Controller) (es : List Event) : Controller := es.foldl step s

/-- Whether the event is a scroll evaluation (an animation-frame callback). -/
def Event.isFrame : Event → Bool
  | Event.frame _ => true
  | _ => false

/-! ## Fixtures: concrete pages used by the closed statements -/

/-- A page whose footer has no inline transform and whose computed transform is `none`. -/
def freshPage : Controller := initFooter ⟨"", false, "none"⟩ []

/-- A long page (document 3000, viewport 800) read at scroll offset `p`. -/
def longPageAt (p : Int) : Window := ⟨p, p, 800, 3000⟩

/-- A visible footer with `lastScrollTop = 150` on the long page: scroll down to 200, then
up to 150. -/
def visibleAt150 : Controller :=
  run freshPage [Event.scroll, Event.frame (longPageAt 200),
                 Event.scroll, Event.frame (longPageAt 150)]

/-- A hidden footer with `lastScrollTop = 200` on the long page: one scroll down to 200. -/
def hiddenAt200 : Controller :=
  run freshPage [Event.scroll, Event.frame (longPageAt 200)]

/-- A hidden footer with `lastScrollTop = 150` on the long page: one scroll down to 150. -/
def hiddenAt150 : Controller :=
  run freshPage [Event.scroll, Event.frame (longPageAt 150)]

/-- A footer element whose inline transform is already the shown value while its computed
transform carries a 200 px offset (as under an `!important` stylesheet rule). -/
def shownInlineFooter : Footer := ⟨"translateY(0)", false, "matrix(1, 0, 0, 1, 0, 200)"⟩

/-- The footer's inline transform is the shown value and the body carries the marker class. -/
def domShown (s : Controller) : Prop :=
  s.footerTransform = shownTransform ∧ markerClass ∈ s.bodyClasses

instance (s : Controller) : Decidable (domShown s) := by
  unfold domShown; infer_instance

/-- A hidden footer with `lastScrollTop = 2153` on the long page: one scroll down to 2153,
which shows the footer 47 px from the bottom, then the expiry of the timer armed there. -/
def hiddenAt2153 : Controller :=
  run freshPage [Event.scroll, Event.frame (longPageAt 2153), Event.timeout ⟨0, 2153⟩]

/-- The long page read at offset 2150, 50 px from its bottom, from the fresh page: the
footer is visible and the timer with handle 0 has captured 2150. -/
def atBottom2150 : Controller :=
  run freshPage [Event.scroll, Event.frame (longPageAt 2150)]

/-- A footer that the stylesheet already holds 200 px down, with no inline transform. -/
def styledHiddenFooter : Footer := ⟨"", false, "matrix(1, 0, 0, 1, 0, 200)"⟩

/-- No timer is live, or exactly one is and `scrollTimeout` holds its handle. -/
def timerInv (s : Controller) : Prop :=
  s.timers = [] ∨ ∃ t : Timer, s.timers = [t] ∧ s.scrollTimeout = some t.id

/-- The flag `ticking` is set exactly when one frame callback is scheduled, and no more than
one ever is. -/
def frameInv (s : Controller) : Prop :=
  (s.ticking = true ∧ s.frames = 1) ∨ (s.ticking = false ∧ s.frames = 0)

/-! ## The whole initialisation callback -/

/-- What the page holds once the 500 ms callback of the `DOMContentLoaded` handler
(lines 14-144) has returned. -/
structure Installed where
  /-- Number of `scroll` listeners the callback registered on `window`. -/
  scrollListeners : Nat
  /-- Number of `mouseenter` listeners the callback registered on the footer. -/
  mouseenterListeners : Nat
  /-- Names the callback defined on `window`. -/
  globals : List String
  /-- Auto-hide timers live when the callback returns. -/
  timers : List Timer
  /-- Inline transform of the footer and its priority; `none` when there is no footer. -/
  footerTransform : Option (String × Bool)
  /-- Tokens of `document.body.classList`. -/
  bodyClasses : List String
  /-- Console output, oldest first. -/
  console : List Entry
deriving DecidableEq, Repr

/-- The callback given to `setTimeout(..., 500)` (lines 14-144).  The argument `footer` is
the result of `document.querySelector('.md-footer')`, `none` standing for `null`.  Both
branches are straight-line code over values that are present, so the callback always
returns. -/
def init (footer : Option Footer) (bodyClasses : List String) : Installed :=
  match footer with
  | some f =>
      let c := initFooter f bodyClasses
      { scrollListeners := 1
        mouseenterListeners := 1
        globals := ["testFooter", "resetFooter"]
        timers := c.timers
        footerTransform := some (c.footerTransform, c.footerTransformImportant)
        bodyClasses := c.bodyClasses
        console := c.console }
  | none =>
      { scrollListeners := 0
        mouseenterListeners := 0
        globals := []
        timers := []
        footerTransform := none
        bodyClasses := bodyClasses
        console :=
          bootConsole ++
          [⟨Level.log, "Footer element:"⟩,
           ⟨Level.error, "ERREUR: Footer (.md-footer) non trouvé !"⟩] }

end DebugFooter

/-!
# Homepage footer of `assets/javascripts/homepage-animations.js`
-/

namespace HomepageAnimations

/-- The `.md-footer` element: its class list and its inline transform. -/
structure FooterElement where
  classList : List String
  transform : String
deriving DecidableEq, Repr

/-- The closure variables of the `DOMContentLoaded` handler and the elements it writes. -/
structure State where
  /-- Variable `lastScrollY`. -/
  lastScrollY : Int
  /-- Variable `footerVisible`. -/
  footerVisible : Bool
  /-- Variable `isNearBottom`. -/
  isNearBottom : Bool
  /-- Constant `footer`, `none` standing for `null`. -/
  footer : Option FooterElement
  /-- Class list of the constant `footerDirection`, `none` standing for `null`. -/
  footerDirection : Option (List String)
  /-- Console output, oldest first. -/
  console : List String
deriving DecidableEq, Repr

/-- The two values of `scrollDirection`. -/
inductive Direction where
  | down
  | up
deriving DecidableEq, Repr

/-- The constant `scrollDirection` (line 54). -/
def scrollDirection (scrollPosition lastScrollY : Int) : Direction :=
  if scrollPosition > lastScrollY then Direction.down else Direction.up

/-- The function `handleScrollAnimations` (lines 50-92). -/
def handleScrollAnimations (s : State) (w : DebugFooter.Window) : State :=
  let scrollPosition := DebugFooter.currentScrollTop w
  let windowHeight := w.innerHeight
  let documentHeight := w.scrollHeight
  let dir := scrollDirection scrollPosition s.lastScrollY
  let s1 : State :=
    if dir = Direction.down ∧ scrollPosition > 100 ∧ s.footerVisible = false then
      { s with
        footerVisible := true
        console := s.console ++ ["Showing footer"]
        footer := s.footer.map (fun f =>
          { classList :=
              DebugFooter.classListRemove (DebugFooter.classListAdd f.classList "show") "hide"
            transform := "translateY(0)" }) }
    else if dir = Direction.up ∧ scrollPosition < 200 ∧ s.footerVisible = true then
      { s with
        footerVisible := false
        console := s.console ++ ["Hiding footer"]
        footer := s.footer.map (fun f =>
          { classList :=
              DebugFooter.classListRemove (DebugFooter.classListAdd f.classList "hide") "show"
            transform := "translateY(100%)" }) }
    else s
  let distanceFromBottom := documentHeight - scrollPosition - windowHeight
  let s2 : State :=
    if distanceFromBottom < 800 ∧ s1.isNearBottom = false then
      { s1 with
        isNearBottom := true
        console := s1.console ++ ["Showing Next navigation"]
        footerDirection := s1.footerDirection.map (fun cl => DebugFooter.classListAdd cl "show") }
    else if distanceFromBottom > 800 ∧ s1.isNearBottom = true then
      { s1 with
        isNearBottom := false
        console := s1.console ++ ["Hiding Next navigation"]
        footerDirection :=
          s1.footerDirection.map (fun cl => DebugFooter.classListRemove cl "show") }
    else s1
  { s2 with lastScrollY := scrollPosition }

/-- The state the handler sets up on the homepage (lines 13-28) for a footer with the given
class list; the console lines of lines 11-23 are left out. -/
def initial (footerClasses : List String) : State :=
  { lastScrollY := 0
    footerVisible := false
    isNearBottom := false
    footer := some ⟨footerClasses, "translateY(100%)"⟩
    footerDirection := some []
    console := [] }

/-- A very long page (document 9000, viewport 800) read at scroll offset `p`. -/
def pageAt (p : Int) : DebugFooter.Window := ⟨p, p, 800, 9000⟩

/-- The homepage after one scroll down to 600: the footer is visible. -/
def visibleAt600 : State := handleScrollAnimations (initial []) (pageAt 600)

end HomepageAnimations

/-!
# Class cleanup of `docs/assets/javascripts/cleanup-animations.js`
-/

namespace CleanupAnimations

/-- The class `\s` of JavaScript regular expressions, by code point. -/
def isSpace (c : Char) : Bool :=
  let n := c.toNat
  n == 9 || n == 10 || n == 11 || n == 12 || n == 13 || n == 32 || n == 160 ||
  n == 5760 || (8192 ≤ n && n ≤ 8202) || n == 8232 || n == 8233 || n == 8239 ||
  n == 8287 || n == 12288 || n == 65279

/-- The literal part of the pattern `/scroll-animate[^\s]*/g`. -/
def scrollAnimate : List Char := "scroll-animate".data

/-- The call `.replace(/scroll-animate[^\s]*/g, '')` on a list of characters, scanning from
the left.  With `inMatch = false` the scan looks for the literal at the current position;
on a match it drops the characters up to the next white space or the end (the literal
holds no white space, so this drops the literal and then the run `[^\s]*`).  With
`inMatch = true` the scan is inside that run; a white-space character ends it, is kept, and
cannot start a match. -/
def replaceChars : Bool → List Char → List Char
  | _, [] => []
  | true, c :: cs => if isSpace c then c :: replaceChars false cs else replaceChars true cs
  | false, c :: cs =>
      if DebugFooter.startsWith (c :: cs) scrollAnimate then replaceChars true cs
      else c :: replaceChars false cs

/-- The expression `className.replace(/scroll-animate[^\s]*/g, '')` (line 158). -/
def replaceScrollAnimate (className : String) : String :=
  String.mk (replaceChars false className.data)

/-- The effect of the mutation-observer callback on the `className` of a mutated element
(lines 156-158). -/
def observerRewrite (className : String) : String :=
  if DebugFooter.includes className "scroll-animate" then replaceScrollAnimate className
  else className

/-- The call `.split(' ')`: the pieces between single spaces, empty pieces included. -/
def splitSpace : List Char → List (List Char)
  | [] => [[]]
  | c :: cs =>
      if c = ' ' then [] :: splitSpace cs
      else
        match splitSpace cs with
        | [] => [[c]]
        | p :: ps => (c :: p) :: ps

/-- The call `.join(' ')`. -/
def joinSpace : List (List Char) → List Char
  | [] => []
  | [p] => p
  | p :: q :: ps => p ++ ' ' :: joinSpace (q :: ps)

/-- The predicate given to `classes.filter` (lines 15-20). -/
def keepClass (cls : List Char) : Bool :=
  !DebugFooter.includesChars cls "scroll-animate".data &&
  !DebugFooter.includesChars cls "animate-".data &&
  !DebugFooter.includesChars cls "fade-".data &&
  !DebugFooter.includesChars cls "slide-".data

/-- The new `className` computed by lines 14-21. -/
def cleanClassName (className : String) : String :=
  String.mk (joinSpace ((splitSpace className.data).filter keepClass))

/-- ASCII white space, the separators of the tokens of a `class` attribute. -/
def isAsciiSpace (c : Char) : Bool :=
  let n := c.toNat
  n == 9 || n == 10 || n == 12 || n == 13 || n == 32

/-- The pieces of a list of characters between ASCII white space, empty pieces included. -/
def splitAsciiSpace : List Char → List (List Char)
  | [] => [[]]
  | c :: cs =>
      if isAsciiSpace c then [] :: splitAsciiSpace cs
      else
        match splitAsciiSpace cs with
        | [] => [[c]]
        | p :: ps => (c :: p) :: ps

/-- The classes of an element as `classList` and the selector `.name` see them: the
non-empty pieces of `className` between ASCII white space. -/
def classTokens (className : String) : List String :=
  ((splitAsciiSpace className.data).filter (fun p => !p.isEmpty)).map String.mk

end CleanupAnimations

namespace DebugFooter

/-! ## Basic facts about `showFooter` and `hideFooter` -/

@[simp] theorem showFooter_isFooterVisible (s : Controller) :
    (showFooter s).isFooterVisible = true := by
  unfold showFooter
  cases h : s.isFooterVisible <;> simp [h]

@[simp] theorem hideFooter_isFooterVisible (s : Controller) :
    (hideFooter s).isFooterVisible = false := by
  unfold hideFooter
  cases h : s.isFooterVisible <;> simp [h]

theorem showFooter_of_visible (s : Controller) (h : s.isFooterVisible = true) :
    showFooter s = s := by
  simp [showFooter, h]

theorem hideFooter_of_hidden (s : Controller) (h : s.isFooterVisible = false) :
    hideFooter s = s := by
  simp [hideFooter, h]

@[simp] theorem showFooter_lastScrollTop (s : Controller) :
    (showFooter s).lastScrollTop = s.lastScrollTop := by
  unfold showFooter; split <;> rfl

@[simp] theorem hideFooter_lastScrollTop (s : Controller) :
    (hideFooter s).lastScrollTop = s.lastScrollTop := by
  unfold hideFooter; split <;> rfl

@[simp] theorem showFooter_timers (s : Controller) :
    (showFooter s).timers = s.timers := by
  unfold showFooter; split <;> rfl

@[simp] theorem hideFooter_timers (s : Controller) :
    (hideFooter s).timers = s.timers := by
  unfold hideFooter; split <;> rfl

@[simp] theorem showFooter_scrollTimeout (s : Controller) :
    (showFooter s).scrollTimeout = s.scrollTimeout := by
  unfold showFooter; split <;> rfl

@[simp] theorem hideFooter_scrollTimeout (s : Controller) :
    (hideFooter s).scrollTimeout = s.scrollTimeout := by
  unfold hideFooter; split <;> rfl

@[simp] theorem showFooter_nextTimer (s : Controller) :
    (showFooter s).nextTimer = s.nextTimer := by
  unfold showFooter; split <;> rfl

@[simp] theorem hideFooter_nextTimer (s : Controller) :
    (hideFooter s).nextTimer = s.nextTimer := by
  unfold hideFooter; split <;> rfl

/-- Below the noise threshold the declared `handleScroll` returns at once. -/
theorem originalHandleScroll_noise (s : Controller) (w : Window)
    (h : mathAbs (currentScrollTop w - s.lastScrollTop) < 5) :
    originalHandleScroll s w = s := by
  simp [originalHandleScroll, h]

/-- At or above the noise threshold the declared `handleScroll` runs to its end. -/
theorem originalHandleScroll_move (s : Controller) (w : Window)
    (h : ¬ mathAbs (currentScrollTop w - s.lastScrollTop) < 5) :
    originalHandleScroll s w =
      setTimeout
        (clearTimeout
          { (if currentScrollTop w > s.lastScrollTop then
               (if currentScrollTop w > scrollThreshold then hideFooter s else s)
             else showFooter s) with lastScrollTop := currentScrollTop w }
          (if currentScrollTop w > s.lastScrollTop then
               (if currentScrollTop w > scrollThreshold then hideFooter s else s)
             else showFooter s).scrollTimeout)
        (currentScrollTop w) := by
  simp [originalHandleScroll, h]

@[simp] theorem setTimeout_isFooterVisible (s : Controller) (c : Int) :
    (setTimeout s c).isFooterVisible = s.isFooterVisible := rfl

@[simp] theorem clearTimeout_isFooterVisible (s : Controller) (h : Option Nat) :
    (clearTimeout s h).isFooterVisible = s.isFooterVisible := by
  cases h <;> rfl

@[simp] theorem setTimeout_lastScrollTop (s : Controller) (c : Int) :
    (setTimeout s c).lastScrollTop = s.lastScrollTop := rfl

@[simp] theorem clearTimeout_lastScrollTop (s : Controller) (h : Option Nat) :
    (clearTimeout s h).lastScrollTop = s.lastScrollTop := by
  cases h <;> rfl

/-! ## The claims -/

/-- C1: bottom-of-page override.  For every controller state and every scroll evaluation
read at a position with `documentHeight - currentPosition - viewportHeight < 100`, the footer
is visible right after the evaluation, whatever the direction and threshold logic decided. -/
theorem handleScroll_bottom_override (s : Controller) (w : Window)
    (h : w.scrollHeight - currentScrollTop w - w.innerHeight < 100) :
    (handleScroll s w).isFooterVisible = true := by
  have hb : currentScrollTop w + w.innerHeight ≥ w.scrollHeight - 100 := by omega
  simp [handleScroll, checkBottomPage, hb]

/-- Witness of C1: document 3000, viewport 800, a hidden footer at offset 0 scrolled to 2150. -/
theorem handleScroll_bottom_override_witness :
    freshPage.isFooterVisible = false ∧ freshPage.lastScrollTop = 0 ∧
    (longPageAt 2150).scrollHeight - currentScrollTop (longPageAt 2150)
        - (longPageAt 2150).innerHeight < 100 ∧
    (handleScroll freshPage (longPageAt 2150)).isFooterVisible = true :=
  ⟨by decide, by decide, by decide,
    handleScroll_bottom_override freshPage (longPageAt 2150) (by decide)⟩

/-- Counterexample to C2 as stated: on a short page (document 850, viewport 800) a hidden
footer at offset 0 is read at offset 3; the move is below the noise threshold, yet the
evaluation shows the footer. -/
theorem noise_changes_visibility_near_bottom :
    mathAbs (currentScrollTop ⟨3, 3, 800, 850⟩ - freshPage.lastScrollTop) < 5 ∧
    freshPage.isFooterVisible = false ∧
    (handleScroll freshPage ⟨3, 3, 800, 850⟩).isFooterVisible = true := by
  decide

/-- C2 (amended): for a scroll evaluation whose move is below the noise threshold
(`abs(currentPosition - lastScrollTop) < 5`), the whole controller state is unchanged when
the position is more than 100 px from the bottom of the document, and the footer is visible
after the evaluation when it is within 100 px of the bottom. -/
theorem handleScroll_noise (s : Controller) (w : Window)
    (h : mathAbs (currentScrollTop w - s.lastScrollTop) < 5) :
    (currentScrollTop w + w.innerHeight < w.scrollHeight - 100 → handleScroll s w = s) ∧
    (currentScrollTop w + w.innerHeight ≥ w.scrollHeight - 100 →
      (handleScroll s w).isFooterVisible = true) := by
  constructor
  · intro hfar
    have hb : ¬ currentScrollTop w + w.innerHeight ≥ w.scrollHeight - 100 := by omega
    simp only [handleScroll, originalHandleScroll_noise s w h, checkBottomPage]
    rw [if_neg hb]
  · intro hnear
    simp [handleScroll, checkBottomPage, hnear]

/-- Witness of C2 (amended): a hidden footer at offset 0 of the long page read at offset 3. -/
theorem handleScroll_noise_witness :
    mathAbs (currentScrollTop (longPageAt 3) - freshPage.lastScrollTop) < 5 ∧
    currentScrollTop (longPageAt 3) + (longPageAt 3).innerHeight
      < (longPageAt 3).scrollHeight - 100 ∧
    handleScroll freshPage (longPageAt 3) = freshPage :=
  ⟨by decide, by decide,
    (handleScroll_noise freshPage (longPageAt 3) (by decide)).1 (by decide)⟩

/-- Counterexample to C3 as stated, twice over.  From a visible footer at offset 150 of the
long page: (a) a move down to 152 is below the noise threshold and leaves the footer
visible; (b) a move down to 2150 lands within 100 px of the bottom, where the footer is
shown again. -/
theorem scroll_down_can_leave_visible :
    visibleAt150.isFooterVisible = true ∧ visibleAt150.lastScrollTop = 150 ∧
    (currentScrollTop (longPageAt 152) - visibleAt150.lastScrollTop > 0 ∧
      currentScrollTop (longPageAt 152) > 100 ∧
      (handleScroll visibleAt150 (longPageAt 152)).isFooterVisible = true) ∧
    (currentScrollTop (longPageAt 2150) - visibleAt150.lastScrollTop > 0 ∧
      currentScrollTop (longPageAt 2150) > 100 ∧
      (handleScroll visibleAt150 (longPageAt 2150)).isFooterVisible = true) := by
  decide

/-- C3 (amended): for a scroll evaluation that moves down by at least the noise threshold
(`currentPosition - lastScrollTop ≥ 5`) to a position past the scroll threshold
(`currentPosition > 100`) and more than 100 px from the bottom of the document, a footer
that was visible before the evaluation is hidden after it. -/
theorem handleScroll_down_hides (s : Controller) (w : Window)
    (hdelta : currentScrollTop w - s.lastScrollTop ≥ 5)
    (hpos : currentScrollTop w > 100)
    (hfar : currentScrollTop w + w.innerHeight < w.scrollHeight - 100)
    (_hvis : s.isFooterVisible = true) :
    (handleScroll s w).isFooterVisible = false := by
  have hmove : ¬ mathAbs (currentScrollTop w - s.lastScrollTop) < 5 := by
    unfold mathAbs; split <;> omega
  have hdown : currentScrollTop w > s.lastScrollTop := by omega
  have hthr : currentScrollTop w > scrollThreshold := by simpa [scrollThreshold] using hpos
  have hb : ¬ currentScrollTop w + w.innerHeight ≥ w.scrollHeight - 100 := by omega
  simp only [handleScroll, checkBottomPage]
  rw [if_neg hb, originalHandleScroll_move s w hmove]
  simp [hdown, hthr]

/-- Witness of C3 (amended): the visible footer at offset 150 scrolled down to 400. -/
theorem handleScroll_down_hides_witness :
    visibleAt150.isFooterVisible = true ∧
    (handleScroll visibleAt150 (longPageAt 400)).isFooterVisible = false :=
  ⟨by decide,
    handleScroll_down_hides visibleAt150 (longPageAt 400)
      (by decide) (by decide) (by decide) (by decide)⟩

/-- Counterexample to C4 as stated: from a hidden footer at offset 200 of the long page, a
move up to 198 is below the noise threshold and leaves the footer hidden. -/
theorem scroll_up_can_leave_hidden :
    hiddenAt200.isFooterVisible = false ∧ hiddenAt200.lastScrollTop = 200 ∧
    currentScrollTop (longPageAt 198) - hiddenAt200.lastScrollTop < 0 ∧
    (handleScroll hiddenAt200 (longPageAt 198)).isFooterVisible = false := by
  decide

/-- C4 (amended): for a scroll evaluation that moves up by at least the noise threshold
(`currentPosition - lastScrollTop ≤ -5`), a footer that was hidden before the evaluation is
visible after it, at every absolute position, the positions at or below 100 included. -/
theorem handleScroll_up_shows (s : Controller) (w : Window)
    (hdelta : currentScrollTop w - s.lastScrollTop ≤ -5)
    (_hhid : s.isFooterVisible = false) :
    (handleScroll s w).isFooterVisible = true := by
  have hmove : ¬ mathAbs (currentScrollTop w - s.lastScrollTop) < 5 := by
    unfold mathAbs; split <;> omega
  have hup : ¬ currentScrollTop w > s.lastScrollTop := by omega
  simp only [handleScroll, checkBottomPage]
  rw [originalHandleScroll_move s w hmove]
  split <;> simp [hup]

/-- Witness of C4 (amended): the hidden footer at offset 200 scrolled up to 60. -/
theorem handleScroll_up_shows_witness :
    hiddenAt200.isFooterVisible = false ∧
    (handleScroll hiddenAt200 (longPageAt 60)).isFooterVisible = true :=
  ⟨by decide, handleScroll_up_shows hiddenAt200 (longPageAt 60) (by decide) (by decide)⟩

/-- Counterexample to C5 as stated: the hidden footer at offset 0 of the long page is read
at offset 3; the call returns at the noise threshold and `lastScrollTop` stays 0. -/
theorem noise_keeps_lastScrollTop :
    freshPage.lastScrollTop = 0 ∧ currentScrollTop (longPageAt 3) = 3 ∧
    (originalHandleScroll freshPage (longPageAt 3)).lastScrollTop = 0 ∧
    (handleScroll freshPage (longPageAt 3)).lastScrollTop = 0 := by
  decide

/-- C5 (amended): after one `handleScroll` evaluation at position `p` the stored
`lastScrollTop` equals `p` when `abs(p - lastScrollTop) ≥ 5`, and keeps its previous value
when the call is suppressed by the noise threshold (`abs(p - lastScrollTop) < 5`). -/
theorem handleScroll_lastScrollTop (s : Controller) (w : Window) :
    (handleScroll s w).lastScrollTop =
      if mathAbs (currentScrollTop w - s.lastScrollTop) < 5 then s.lastScrollTop
      else currentScrollTop w := by
  have hcb : ∀ t : Controller, (checkBottomPage t w).lastScrollTop = t.lastScrollTop := by
    intro t; unfold checkBottomPage; split <;> simp
  rw [handleScroll, hcb]
  by_cases h : mathAbs (currentScrollTop w - s.lastScrollTop) < 5
  · rw [if_pos h, originalHandleScroll_noise s w h]
  · rw [if_neg h, originalHandleScroll_move s w h]
    simp

/-! ### Auto-hide -/

@[simp] theorem checkBottomPage_timers (s : Controller) (w : Window) :
    (checkBottomPage s w).timers = s.timers := by
  unfold checkBottomPage; split <;> simp

/-- A timer live after a scroll evaluation and not before is the one the evaluation armed:
it captured the position the evaluation read. -/
theorem armed_timer_captures (s : Controller) (w : Window) (t : Timer)
    (hin : t ∈ (handleScroll s w).timers) (hout : t ∉ s.timers) :
    t.currentScrollTop = currentScrollTop w := by
  rw [handleScroll, checkBottomPage_timers] at hin
  by_cases h : mathAbs (currentScrollTop w - s.lastScrollTop) < 5
  · rw [originalHandleScroll_noise s w h] at hin
    exact absurd hin hout
  · rw [originalHandleScroll_move s w h] at hin
    simp only [setTimeout, List.mem_append, List.mem_singleton] at hin
    rcases hin with hin | hin
    · exfalso
      apply hout
      generalize (if currentScrollTop w > s.lastScrollTop then
          (if currentScrollTop w > scrollThreshold then hideFooter s else s)
          else showFooter s).scrollTimeout = o at hin
      have hsub : t ∈ (if currentScrollTop w > s.lastScrollTop then
          (if currentScrollTop w > scrollThreshold then hideFooter s else s)
          else showFooter s).timers := by
        cases o with
        | none => exact hin
        | some i => exact (List.mem_filter.mp hin).1
      split_ifs at hsub <;> simpa using hsub
    · rw [hin]

/-- An event that is neither a scroll evaluation nor the expiry of `t` keeps `t` live. -/
theorem step_keeps_timer (s : Controller) (e : Event) (t : Timer)
    (ht : t ∈ s.timers) (hf : e.isFrame = false) (hne : e ≠ Event.timeout t) :
    t ∈ (step s e).timers := by
  cases e with
  | scroll => simp only [step, requestScrollUpdate]; split <;> exact ht
  | frame w => simp [Event.isFrame] at hf
  | timeout u =>
      have hut : t ≠ u := fun h => hne (by rw [h])
      simp only [step]
      split
      · simp only [timeoutCallback]
        split
        · simp only [hideFooter_timers]
          exact (List.mem_erase_of_ne hut).mpr ht
        · exact (List.mem_erase_of_ne hut).mpr ht
      · exact ht
  | mouseenter => simpa [step] using ht
  | testFooter =>
      simp only [step, testFooter]
      split <;> simpa using ht
  | resetFooter => exact ht

/-- A run without scroll evaluation and without the expiry of `t` keeps `t` live. -/
theorem run_keeps_timer (es : List Event) (t : Timer) :
    ∀ s : Controller, t ∈ s.timers →
      (∀ e ∈ es, e.isFrame = false ∧ e ≠ Event.timeout t) → t ∈ (run s es).timers := by
  induction es with
  | nil => intro s ht _; exact ht
  | cons e es ih =>
      intro s ht h
      have he := h e (List.mem_cons_self e es)
      have hrest : ∀ e' ∈ es, e'.isFrame = false ∧ e' ≠ Event.timeout t :=
        fun e' he' => h e' (List.mem_cons_of_mem e he')
      simpa [run] using ih (step s e) (step_keeps_timer s e t ht he.1 he.2) hrest

/-- The expiry of a live timer that captured a position past the threshold leaves the
footer hidden. -/
theorem expiry_hides (s : Controller) (t : Timer) (ht : t ∈ s.timers)
    (hpos : t.currentScrollTop > scrollThreshold) :
    (step s (Event.timeout t)).isFooterVisible = false := by
  simp only [step, if_pos ht, timeoutCallback]
  cases hv : s.isFooterVisible <;> simp [hv, hpos]

/-- Counterexample to C6 as stated: on the long page the footer is hidden with
`lastScrollTop = 2153` (scrolled to 2153, then hidden by the expiry of the timer armed
there).  The evaluation at 2150 moves up, past the threshold, and shows the footer through
the bottom-of-page check, but the move is below the noise threshold, so it arms no timer:
no timer is live afterwards, no expiry changes the state, and the footer stays visible. -/
theorem scroll_up_can_arm_no_timer :
    hiddenAt2153.isFooterVisible = false ∧ hiddenAt2153.lastScrollTop = 2153 ∧
    currentScrollTop (longPageAt 2150) < hiddenAt2153.lastScrollTop ∧
    currentScrollTop (longPageAt 2150) > 100 ∧
    (handleScroll hiddenAt2153 (longPageAt 2150)).isFooterVisible = true ∧
    (handleScroll hiddenAt2153 (longPageAt 2150)).timers = [] ∧
    (step (handleScroll hiddenAt2153 (longPageAt 2150))
      (Event.timeout ⟨1, 2150⟩)).isFooterVisible = true ∧
    (step (handleScroll hiddenAt2153 (longPageAt 2150))
      (Event.timeout ⟨0, 2153⟩)).isFooterVisible = true := by
  decide

/-- A scroll evaluation that moves by at least the noise threshold arms a timer that
captures the position read and stores its handle in `scrollTimeout`. -/
theorem handleScroll_arms (s : Controller) (w : Window)
    (h : ¬ mathAbs (currentScrollTop w - s.lastScrollTop) < 5) :
    (⟨s.nextTimer, currentScrollTop w⟩ : Timer) ∈ (handleScroll s w).timers ∧
    (handleScroll s w).scrollTimeout = some s.nextTimer := by
  have hcs : ∀ u : Controller, (checkBottomPage u w).scrollTimeout = u.scrollTimeout := by
    intro u; unfold checkBottomPage; split <;> simp
  rw [handleScroll, checkBottomPage_timers, hcs, originalHandleScroll_move s w h]
  generalize (if currentScrollTop w > s.lastScrollTop then
      (if currentScrollTop w > scrollThreshold then hideFooter s else s)
      else showFooter s).scrollTimeout = o
  cases o <;> simp only [setTimeout, clearTimeout] <;> split_ifs <;> simp

/-- C6 (amended): auto-hide.  With the timer a pending action of the step function: every
scroll evaluation that moves up by at least the noise threshold
(`currentPosition - lastScrollTop ≤ -5`) to a position past the threshold
(`currentPosition > 100`) shows the footer and arms a timer that captures that position;
the timer stays pending through any events that are neither a scroll evaluation nor its own
expiry, and after its expiry the footer is hidden. -/
theorem autoHide_after_scroll_up (s : Controller) (w : Window) (es : List Event)
    (hdelta : currentScrollTop w - s.lastScrollTop ≤ -5)
    (hpos : currentScrollTop w > 100)
    (hquiet : ∀ e ∈ es,
      e.isFrame = false ∧ e ≠ Event.timeout ⟨s.nextTimer, currentScrollTop w⟩) :
    (handleScroll s w).isFooterVisible = true ∧
    (⟨s.nextTimer, currentScrollTop w⟩ : Timer) ∈ (handleScroll s w).timers ∧
    (handleScroll s w).scrollTimeout = some s.nextTimer ∧
    (⟨s.nextTimer, currentScrollTop w⟩ : Timer) ∈ (run (handleScroll s w) es).timers ∧
    (run (handleScroll s w)
      (es ++ [Event.timeout ⟨s.nextTimer, currentScrollTop w⟩])).isFooterVisible = false := by
  have hmove : ¬ mathAbs (currentScrollTop w - s.lastScrollTop) < 5 := by
    unfold mathAbs; split <;> omega
  have hup : ¬ currentScrollTop w > s.lastScrollTop := by omega
  have hvis : (handleScroll s w).isFooterVisible = true := by
    simp only [handleScroll, checkBottomPage]
    rw [originalHandleScroll_move s w hmove]
    split <;> simp [hup]
  have harm := handleScroll_arms s w hmove
  have hcap : (⟨s.nextTimer, currentScrollTop w⟩ : Timer).currentScrollTop
      > scrollThreshold := by
    simpa [scrollThreshold] using hpos
  have hlive := run_keeps_timer es ⟨s.nextTimer, currentScrollTop w⟩ (handleScroll s w)
    harm.1 hquiet
  have hrun : run (handleScroll s w)
      (es ++ [Event.timeout ⟨s.nextTimer, currentScrollTop w⟩])
      = step (run (handleScroll s w) es)
          (Event.timeout ⟨s.nextTimer, currentScrollTop w⟩) := by
    simp [run, List.foldl_append]
  refine ⟨hvis, harm.1, harm.2, hlive, ?_⟩
  rw [hrun]
  exact expiry_hides _ _ hlive hcap

/-- Witness of C6 (amended): start hidden at 0, scroll to 150 (hidden), scroll to 120
(visible, timer 1 armed), a mouse-enter and a scroll event later that timer expires
(hidden). -/
theorem autoHide_after_scroll_up_witness :
    freshPage.isFooterVisible = false ∧ freshPage.lastScrollTop = 0 ∧
    hiddenAt150.isFooterVisible = false ∧ hiddenAt150.lastScrollTop = 150 ∧
    (handleScroll hiddenAt150 (longPageAt 120)).isFooterVisible = true ∧
    (handleScroll hiddenAt150 (longPageAt 120)).timers = [⟨1, 120⟩] ∧
    (run (handleScroll hiddenAt150 (longPageAt 120))
      ([Event.mouseenter, Event.scroll] ++ [Event.timeout ⟨1, 120⟩])).isFooterVisible
        = false :=
  ⟨by decide, by decide, by decide, by decide, by decide, by decide,
    (autoHide_after_scroll_up hiddenAt150 (longPageAt 120) [Event.mouseenter, Event.scroll]
      (by decide) (by decide) (by decide)).2.2.2.2⟩

/-! ### `showFooter` and `hideFooter` as operations -/

/-- C7: `showFooter` is idempotent: applying it twice is applying it once, on an already
visible footer it changes nothing, and a body that carries the marker class at most once
still carries it at most once after two calls in a row. -/
theorem showFooter_idempotent (s : Controller) :
    showFooter (showFooter s) = showFooter s ∧
    (s.isFooterVisible = true → showFooter s = s) ∧
    (s.bodyClasses.count markerClass ≤ 1 →
      (showFooter (showFooter s)).bodyClasses.count markerClass ≤ 1) := by
  have h1 : showFooter (showFooter s) = showFooter s :=
    showFooter_of_visible _ (showFooter_isFooterVisible s)
  refine ⟨h1, showFooter_of_visible s, ?_⟩
  intro hc
  rw [h1]
  unfold showFooter
  split
  · simp only [classListAdd]
    split
    · exact hc
    · rename_i hm
      rw [List.count_append, List.count_eq_zero_of_not_mem hm]
      simp
  · exact hc

/-- Witness of C7: two calls on the freshly initialised page add the marker class once; a
call on the visible footer at offset 150 changes nothing. -/
theorem showFooter_idempotent_witness :
    showFooter (showFooter freshPage) = showFooter freshPage ∧
    showFooter visibleAt150 = visibleAt150 ∧
    (showFooter (showFooter freshPage)).bodyClasses.count markerClass ≤ 1 :=
  ⟨(showFooter_idempotent freshPage).1,
    (showFooter_idempotent visibleAt150).2.1 (by decide),
    (showFooter_idempotent freshPage).2.2 (by decide)⟩

/-- Counterexample to C8 as stated: after one scroll down to 200 the footer is hidden and
the timer with handle 0 is pending; `showFooter` shows the footer and the timer is still
pending. -/
theorem showFooter_timer_survives :
    hiddenAt200.isFooterVisible = false ∧
    hiddenAt200.timers = [⟨0, 200⟩] ∧ hiddenAt200.scrollTimeout = some 0 ∧
    (showFooter hiddenAt200).isFooterVisible = true ∧
    (showFooter hiddenAt200).timers = [⟨0, 200⟩] := by
  decide

/-- C8 (amended): for every controller state, in particular one in which the footer is
hidden and an auto-hide timer is pending, `showFooter` leaves the pending timers and the
stored handle `scrollTimeout` as they were: it cancels no timer. -/
theorem showFooter_leaves_timers (s : Controller) :
    (showFooter s).timers = s.timers ∧ (showFooter s).scrollTimeout = s.scrollTimeout ∧
    (showFooter s).nextTimer = s.nextTimer := by
  unfold showFooter
  split <;> exact ⟨rfl, rfl, rfl⟩

/-- C9: `hideFooter` is idempotent: applying it twice is applying it once, on an already
hidden footer it changes nothing, and on a visible footer the result is hidden, its inline
transform is `translateY(200px)` and the body no longer carries the marker class. -/
theorem hideFooter_idempotent (s : Controller) :
    hideFooter (hideFooter s) = hideFooter s ∧
    (s.isFooterVisible = false → hideFooter s = s) ∧
    (s.isFooterVisible = true →
      (hideFooter s).isFooterVisible = false ∧
      (hideFooter s).footerTransform = "translateY(200px)" ∧
      "footer-visible" ∉ (hideFooter s).bodyClasses) := by
  refine ⟨hideFooter_of_hidden _ (hideFooter_isFooterVisible s), hideFooter_of_hidden s, ?_⟩
  intro hv
  simp [hideFooter, hv, hiddenTransform, classListRemove, markerClass]

/-- Witness of C9: the visible footer at offset 150 and the hidden footer at offset 200. -/
theorem hideFooter_idempotent_witness :
    hideFooter (hideFooter visibleAt150) = hideFooter visibleAt150 ∧
    hideFooter hiddenAt200 = hiddenAt200 ∧
    ((hideFooter visibleAt150).isFooterVisible = false ∧
      (hideFooter visibleAt150).footerTransform = "translateY(200px)" ∧
      "footer-visible" ∉ (hideFooter visibleAt150).bodyClasses) :=
  ⟨(hideFooter_idempotent visibleAt150).1,
    (hideFooter_idempotent hiddenAt200).2.1 (by decide),
    (hideFooter_idempotent visibleAt150).2.2 (by decide)⟩

/-! ### Consistency of the flag with the DOM -/

/-- A property of the triple (flag, inline transform, body classes) that `showFooter`,
`hideFooter` and `resetFooter` preserve is preserved by every event. -/
theorem step_preserves (Q : Bool → String → List String → Prop)
    (hshow : ∀ s : Controller, Q s.isFooterVisible s.footerTransform s.bodyClasses →
      Q (showFooter s).isFooterVisible (showFooter s).footerTransform (showFooter s).bodyClasses)
    (hhide : ∀ s : Controller, Q s.isFooterVisible s.footerTransform s.bodyClasses →
      Q (hideFooter s).isFooterVisible (hideFooter s).footerTransform (hideFooter s).bodyClasses)
    (hreset : ∀ s : Controller, Q s.isFooterVisible s.footerTransform s.bodyClasses →
      Q (resetFooter s).isFooterVisible (resetFooter s).footerTransform
        (resetFooter s).bodyClasses)
    (s : Controller) (e : Event)
    (h : Q s.isFooterVisible s.footerTransform s.bodyClasses) :
    Q (step s e).isFooterVisible (step s e).footerTransform (step s e).bodyClasses := by
  have horig : ∀ (s : Controller) (w : Window),
      Q s.isFooterVisible s.footerTransform s.bodyClasses →
      Q (originalHandleScroll s w).isFooterVisible (originalHandleScroll s w).footerTransform
        (originalHandleScroll s w).bodyClasses := by
    intro s w h
    by_cases hn : mathAbs (currentScrollTop w - s.lastScrollTop) < 5
    · rw [originalHandleScroll_noise s w hn]; exact h
    · rw [originalHandleScroll_move s w hn]
      have key : ∀ s1 : Controller, Q s1.isFooterVisible s1.footerTransform s1.bodyClasses →
          Q (setTimeout (clearTimeout { s1 with lastScrollTop := currentScrollTop w }
                s1.scrollTimeout) (currentScrollTop w)).isFooterVisible
            (setTimeout (clearTimeout { s1 with lastScrollTop := currentScrollTop w }
                s1.scrollTimeout) (currentScrollTop w)).footerTransform
            (setTimeout (clearTimeout { s1 with lastScrollTop := currentScrollTop w }
                s1.scrollTimeout) (currentScrollTop w)).bodyClasses := by
        intro s1 h1
        cases s1.scrollTimeout <;> exact h1
      apply key
      split_ifs
      · exact hhide s h
      · exact h
      · exact hshow s h
  have hscroll : ∀ (s : Controller) (w : Window),
      Q s.isFooterVisible s.footerTransform s.bodyClasses →
      Q (handleScroll s w).isFooterVisible (handleScroll s w).footerTransform
        (handleScroll s w).bodyClasses := by
    intro s w h
    unfold handleScroll checkBottomPage
    split
    · exact hshow _ (horig s w h)
    · exact horig s w h
  cases e with
  | scroll => simp only [step, requestScrollUpdate]; split <;> exact h
  | frame w =>
      simp only [step]
      split
      · exact hscroll { s with frames := s.frames - 1 } w h
      · exact h
  | timeout t =>
      simp only [step]
      split
      · simp only [timeoutCallback]
        split
        · exact hhide { s with timers := s.timers.erase t } h
        · exact h
      · exact h
  | mouseenter => exact hshow s h
  | testFooter =>
      simp only [step, testFooter]
      split
      · exact hhide s h
      · exact hshow s h
  | resetFooter => exact hreset s h

/-- The same along a whole run. -/
theorem run_preserves (Q : Bool → String → List String → Prop)
    (hshow : ∀ s : Controller, Q s.isFooterVisible s.footerTransform s.bodyClasses →
      Q (showFooter s).isFooterVisible (showFooter s).footerTransform (showFooter s).bodyClasses)
    (hhide : ∀ s : Controller, Q s.isFooterVisible s.footerTransform s.bodyClasses →
      Q (hideFooter s).isFooterVisible (hideFooter s).footerTransform (hideFooter s).bodyClasses)
    (hreset : ∀ s : Controller, Q s.isFooterVisible s.footerTransform s.bodyClasses →
      Q (resetFooter s).isFooterVisible (resetFooter s).footerTransform
        (resetFooter s).bodyClasses)
    (es : List Event) :
    ∀ s : Controller, Q s.isFooterVisible s.footerTransform s.bodyClasses →
      Q (run s es).isFooterVisible (run s es).footerTransform (run s es).bodyClasses := by
  induction es with
  | nil => intro s h; exact h
  | cons e es ih =>
      intro s h
      have := ih (step s e) (step_preserves Q hshow hhide hreset s e h)
      simpa [run] using this

theorem mem_classListAdd (cs : List String) (c : String) : c ∈ classListAdd cs c := by
  unfold classListAdd
  split
  · assumption
  · simp

theorem hiddenTransform_ne_shown : hiddenTransform ≠ shownTransform := by decide

/-- Counterexample to C10 as stated: the footer is found with inline transform
`translateY(0)` and a computed transform that contains `200`, on a body that already carries
`footer-visible`; the guard of the initialisation leaves the inline style alone, so right
after initialisation the flag is false while the transform is the shown value and the
marker class is present. -/
theorem init_flag_disagrees_with_dom :
    (run (initFooter shownInlineFooter ["footer-visible"]) []).isFooterVisible = false ∧
    (run (initFooter shownInlineFooter ["footer-visible"]) []).footerTransform
      = "translateY(0)" ∧
    "footer-visible" ∈ (run (initFooter shownInlineFooter ["footer-visible"]) []).bodyClasses := by
  decide

/-- C10 (amended): in every state reachable from initialisation (footer present) through
scroll events, animation-frame scroll evaluations, timer expiries, mouse-enter, `testFooter`
and `resetFooter`, a true `isFooterVisible` implies that the inline transform is
`translateY(0)` and that the body carries `footer-visible`; the converse holds as well
unless the initialisation found the computed transform containing `200`, the inline
transform already `translateY(0)` and the marker class already on the body. -/
theorem visible_iff_domShown (f : Footer) (cs : List String) (es : List Event) :
    ((run (initFooter f cs) es).isFooterVisible = true → domShown (run (initFooter f cs) es)) ∧
    (¬ (includes f.computedTransform "200" = true ∧ f.styleTransform = shownTransform ∧
          markerClass ∈ cs) →
      ((run (initFooter f cs) es).isFooterVisible = true ↔
        domShown (run (initFooter f cs) es))) := by
  have hto : (run (initFooter f cs) es).isFooterVisible = true →
      domShown (run (initFooter f cs) es) := by
    apply run_preserves
      (fun v tr cl => v = true → tr = shownTransform ∧ markerClass ∈ cl)
    · intro s _ _
      unfold showFooter
      split
      · exact ⟨rfl, mem_classListAdd _ _⟩
      · rename_i hv
        have hv' : s.isFooterVisible = true := by simpa using hv
        rename_i hs _
        exact hs hv'
    · intro s _ hv
      simp at hv
    · intro s _ hv
      simp [resetFooter] at hv
    · intro hv
      simp [initFooter] at hv
  refine ⟨hto, fun hpre => ⟨hto, ?_⟩⟩
  apply run_preserves
    (fun v tr cl => tr = shownTransform ∧ markerClass ∈ cl → v = true)
  · intro s _ _
    exact showFooter_isFooterVisible s
  · intro s hs hd
    unfold hideFooter at hd ⊢
    split
    · rename_i hv
      simp only [hv, if_true] at hd
      exact absurd hd.1 hiddenTransform_ne_shown
    · rename_i hv
      simp only [hv] at hd
      exact hs hd
  · intro s _ hd
    exact absurd hd.1 hiddenTransform_ne_shown
  · intro hd
    exfalso
    apply hpre
    simp only [initFooter] at hd
    cases hinc : includes f.computedTransform "200"
    · simp only [hinc, Bool.not_false, if_true] at hd
      exact absurd hd.1 hiddenTransform_ne_shown
    · simp only [hinc, Bool.not_true] at hd
      exact ⟨rfl, hd.1, hd.2⟩

/-- Witness of C10 (amended): the freshly initialised page, scrolled down to 200 and up to
150, shows its footer with the shown transform and the marker class. -/
theorem visible_iff_domShown_witness :
    ¬ (includes "none" "200" = true ∧ "" = shownTransform ∧ markerClass ∈ ([] : List String)) ∧
    visibleAt150.isFooterVisible = true ∧ domShown visibleAt150 :=
  ⟨by decide, by decide,
    ((visible_iff_domShown ⟨"", false, "none"⟩ []
      [Event.scroll, Event.frame (longPageAt 200),
       Event.scroll, Event.frame (longPageAt 150)]).2 (by decide)).1 (by decide)⟩

/-! ### At most one auto-hide timer -/

@[simp] theorem checkBottomPage_scrollTimeout (s : Controller) (w : Window) :
    (checkBottomPage s w).scrollTimeout = s.scrollTimeout := by
  unfold checkBottomPage; split <;> simp

theorem timerInv_of_eq (s s1 : Controller) (ht : s1.timers = s.timers)
    (hs : s1.scrollTimeout = s.scrollTimeout) (h : timerInv s) : timerInv s1 := by
  unfold timerInv at h ⊢
  rw [ht, hs]
  exact h

/-- Clearing the stored handle and arming a new timer leaves exactly the new timer. -/
theorem timerInv_rearm (s1 : Controller) (x c : Int) (h : timerInv s1) :
    timerInv (setTimeout (clearTimeout { s1 with lastScrollTop := x } s1.scrollTimeout) c) := by
  right
  refine ⟨⟨s1.nextTimer, c⟩, ?_, ?_⟩
  · rcases h with h | ⟨t, ht, hs⟩
    · cases hst : s1.scrollTimeout <;> simp [setTimeout, clearTimeout, h]
    · rw [hs]
      simp [setTimeout, clearTimeout, ht]
  · cases hst : s1.scrollTimeout <;> simp [setTimeout, clearTimeout]

theorem timerInv_handleScroll (s : Controller) (w : Window) (h : timerInv s) :
    timerInv (handleScroll s w) := by
  apply timerInv_of_eq (originalHandleScroll s w) _
    (checkBottomPage_timers _ w) (checkBottomPage_scrollTimeout _ w)
  by_cases hn : mathAbs (currentScrollTop w - s.lastScrollTop) < 5
  · rw [originalHandleScroll_noise s w hn]; exact h
  · rw [originalHandleScroll_move s w hn]
    apply timerInv_rearm
    split_ifs
    · exact timerInv_of_eq s _ (hideFooter_timers s) (hideFooter_scrollTimeout s) h
    · exact h
    · exact timerInv_of_eq s _ (showFooter_timers s) (showFooter_scrollTimeout s) h

theorem timerInv_step (s : Controller) (e : Event) (h : timerInv s) : timerInv (step s e) := by
  cases e with
  | scroll => simp only [step, requestScrollUpdate]; split <;> exact h
  | frame w =>
      simp only [step]
      split
      · exact timerInv_handleScroll { s with frames := s.frames - 1 } w h
      · exact h
  | timeout u =>
      simp only [step]
      split
      · rename_i hu
        have hless : timerInv { s with timers := s.timers.erase u } := by
          rcases h with h | ⟨t, ht, _⟩
          · left; simp [h]
          · left
            have hut : u = t := by simpa [ht] using hu
            simp [ht, hut]
        simp only [timeoutCallback]
        split
        · exact timerInv_of_eq _ _ (hideFooter_timers _) (hideFooter_scrollTimeout _) hless
        · exact hless
      · exact h
  | mouseenter => exact timerInv_of_eq s _ (showFooter_timers s) (showFooter_scrollTimeout s) h
  | testFooter =>
      simp only [step, testFooter]
      split
      · exact timerInv_of_eq s _ (hideFooter_timers s) (hideFooter_scrollTimeout s) h
      · exact timerInv_of_eq s _ (showFooter_timers s) (showFooter_scrollTimeout s) h
  | resetFooter => exact h

theorem timerInv_run (es : List Event) :
    ∀ s : Controller, timerInv s → timerInv (run s es) := by
  induction es with
  | nil => intro s h; exact h
  | cons e es ih =>
      intro s h
      simpa [run] using ih (step s e) (timerInv_step s e h)

/-- C11: with the live timers a list of handles (`setTimeout` adds one, `clearTimeout` and
expiry remove one), every state reachable from initialisation through scroll events, scroll
evaluations, timer expiries, mouse-enter, `testFooter` and `resetFooter` has at most one
live auto-hide timer, and when it has one its handle is the one stored in `scrollTimeout`. -/
theorem at_most_one_timer (f : Footer) (cs : List String) (es : List Event) :
    (run (initFooter f cs) es).timers.length ≤ 1 ∧
    ∀ t ∈ (run (initFooter f cs) es).timers,
      (run (initFooter f cs) es).scrollTimeout = some t.id := by
  have h : timerInv (run (initFooter f cs) es) :=
    timerInv_run es _ (Or.inl rfl)
  rcases h with h | ⟨t, ht, hs⟩
  · simp [h]
  · simp [ht, hs]

/-! ### Initialisation -/

/-- Counterexample to C12 as stated: a footer without inline transform whose computed
transform is `matrix(1, 0, 0, 1, 0, 200)` keeps its empty inline transform through the
initialisation. -/
theorem init_leaves_styled_footer :
    includes styledHiddenFooter.computedTransform "200" = true ∧
    (initFooter styledHiddenFooter []).isFooterVisible = false ∧
    (initFooter styledHiddenFooter []).footerTransform = "" ∧
    (initFooter styledHiddenFooter []).footerTransform ≠ "translateY(200px)" := by
  decide

/-- C12 (amended): after initialisation with the footer present `isFooterVisible` is false;
the inline transform is `translateY(200px)`, with the `important` priority, when the
computed transform does not contain `200`, and is the pre-existing inline transform, left
as found, when it does. -/
theorem initFooter_hidden (f : Footer) (cs : List String) :
    (initFooter f cs).isFooterVisible = false ∧
    (initFooter f cs).footerTransform =
      (if includes f.computedTransform "200" then f.styleTransform else "translateY(200px)") ∧
    (initFooter f cs).footerTransformImportant =
      (if includes f.computedTransform "200" then f.styleTransformImportant else true) := by
  refine ⟨rfl, ?_, ?_⟩ <;>
    cases h : includes f.computedTransform "200" <;> simp [initFooter, h, hiddenTransform]

/-- Counterexample to C13 as stated: with the footer missing the callback writes two console
entries, the trace of the lookup and the error, not one. -/
theorem init_missing_logs_twice :
    (init none []).console =
      bootConsole ++ [⟨Level.log, "Footer element:"⟩,
        ⟨Level.error, "ERREUR: Footer (.md-footer) non trouvé !"⟩] ∧
    (init none []).console.length = bootConsole.length + 2 := by
  decide

/-- C13 (amended): when the `.md-footer` lookup returns nothing, the initialisation callback
returns, registers no scroll or mouse-enter listener, defines no global, arms no timer and
leaves the body classes as they were; its only effects are two console entries, the log of
the lookup result and one error diagnostic. -/
theorem init_missing (cs : List String) :
    (init none cs).scrollListeners = 0 ∧ (init none cs).mouseenterListeners = 0 ∧
    (init none cs).globals = [] ∧ (init none cs).timers = [] ∧
    (init none cs).footerTransform = none ∧ (init none cs).bodyClasses = cs ∧
    (∃ trace : Entry, trace.level = Level.log ∧ ∃ diagnostic : Entry,
      diagnostic.level = Level.error ∧
      (init none cs).console = bootConsole ++ [trace, diagnostic]) ∧
    ((init none cs).console.filter (fun e => e.level = Level.error)).length = 1 := by
  exact ⟨rfl, rfl, rfl, rfl, rfl, rfl, ⟨_, rfl, _, rfl, rfl⟩, rfl⟩

/-! ### Hover and the auto-hide timer -/

/-- Counterexample to C14 as stated: after one scroll down to 200 the footer is hidden and
the timer that captured 200 is pending; a mouse-enter shows the footer, and the expiry of
that timer hides it again. -/
theorem hover_is_not_exempt :
    (⟨0, 200⟩ : Timer) ∈ hiddenAt200.timers ∧
    (step hiddenAt200 Event.mouseenter).isFooterVisible = true ∧
    (run hiddenAt200 [Event.mouseenter, Event.timeout ⟨0, 200⟩]).isFooterVisible = false := by
  decide

/-- C14 (amended): for every state, after a mouse-enter on the footer the expiry of an
auto-hide timer that was pending at the time of the mouse-enter, with no event in between,
leaves the footer visible exactly when the position captured by that timer is at most 100;
when it exceeds 100 the expiry hides the footer. -/
theorem hover_then_expiry (s : Controller) (t : Timer) (ht : t ∈ s.timers) :
    (run s [Event.mouseenter, Event.timeout t]).isFooterVisible
      = decide (t.currentScrollTop ≤ 100) := by
  have hlive : t ∈ (showFooter s).timers := by simpa using ht
  simp only [run, List.foldl, step, if_pos hlive, timeoutCallback]
  by_cases hc : t.currentScrollTop > scrollThreshold
  · have hle : ¬ t.currentScrollTop ≤ 100 := by simpa [scrollThreshold] using hc
    simp [hc, hle]
  · have hle : t.currentScrollTop ≤ 100 := by simpa [scrollThreshold] using hc
    simp [hc, hle]

/-- Witness of C14 (amended): the timer armed at offset 60 survives a mouse-enter without
hiding the footer, the timer armed at offset 200 hides it. -/
theorem hover_then_expiry_witness :
    (run (run freshPage [Event.scroll, Event.frame (longPageAt 60)])
      [Event.mouseenter, Event.timeout ⟨0, 60⟩]).isFooterVisible = decide ((60 : Int) ≤ 100) ∧
    (run hiddenAt200 [Event.mouseenter, Event.timeout ⟨0, 200⟩]).isFooterVisible
      = decide ((200 : Int) ≤ 100) :=
  ⟨hover_then_expiry (run freshPage [Event.scroll, Event.frame (longPageAt 60)]) ⟨0, 60⟩
      (by decide),
    hover_then_expiry hiddenAt200 ⟨0, 200⟩ (by decide)⟩

/-! ### The animation-frame throttle -/

@[simp] theorem showFooter_frames (s : Controller) : (showFooter s).frames = s.frames := by
  unfold showFooter; split <;> rfl

@[simp] theorem hideFooter_frames (s : Controller) : (hideFooter s).frames = s.frames := by
  unfold hideFooter; split <;> rfl

@[simp] theorem showFooter_ticking (s : Controller) : (showFooter s).ticking = s.ticking := by
  unfold showFooter; split <;> rfl

@[simp] theorem hideFooter_ticking (s : Controller) : (hideFooter s).ticking = s.ticking := by
  unfold hideFooter; split <;> rfl

@[simp] theorem handleScroll_frames (s : Controller) (w : Window) :
    (handleScroll s w).frames = s.frames := by
  have hcb : ∀ u : Controller, (checkBottomPage u w).frames = u.frames := by
    intro u; unfold checkBottomPage; split <;> simp
  rw [handleScroll, hcb]
  by_cases h : mathAbs (currentScrollTop w - s.lastScrollTop) < 5
  · rw [originalHandleScroll_noise s w h]
  · rw [originalHandleScroll_move s w h]
    generalize (if currentScrollTop w > s.lastScrollTop then
        (if currentScrollTop w > scrollThreshold then hideFooter s else s)
        else showFooter s).scrollTimeout = o
    cases o <;> simp only [setTimeout, clearTimeout] <;> split_ifs <;> simp

theorem frameInv_of_eq (s s1 : Controller) (ht : s1.ticking = s.ticking)
    (hf : s1.frames = s.frames) (h : frameInv s) : frameInv s1 := by
  unfold frameInv at h ⊢
  rw [ht, hf]
  exact h

theorem frameInv_step (s : Controller) (e : Event) (h : frameInv s) : frameInv (step s e) := by
  cases e with
  | scroll =>
      simp only [step, requestScrollUpdate]
      split
      · rename_i ht
        rcases h with ⟨h1, _⟩ | ⟨_, h2⟩
        · simp [h1] at ht
        · left; exact ⟨rfl, by simp [h2]⟩
      · exact h
  | frame w =>
      simp only [step]
      split
      · rename_i hpos
        right
        refine ⟨rfl, ?_⟩
        rcases h with ⟨_, h2⟩ | ⟨_, h2⟩
        · simp [frameCallback, h2]
        · omega
      · exact h
  | timeout u =>
      simp only [step]
      split
      · simp only [timeoutCallback]
        split
        · exact frameInv_of_eq s _ (by simp) (by simp) h
        · exact h
      · exact h
  | mouseenter => exact frameInv_of_eq s _ (showFooter_ticking s) (showFooter_frames s) h
  | testFooter =>
      simp only [step, testFooter]
      split
      · exact frameInv_of_eq s _ (hideFooter_ticking s) (hideFooter_frames s) h
      · exact frameInv_of_eq s _ (showFooter_ticking s) (showFooter_frames s) h
  | resetFooter => exact h

theorem frameInv_run (es : List Event) :
    ∀ s : Controller, frameInv s → frameInv (run s es) := by
  induction es with
  | nil => intro s h; exact h
  | cons e es ih =>
      intro s h
      simpa [run] using ih (step s e) (frameInv_step s e h)

/-- While a frame callback is scheduled, further scroll events change nothing. -/
theorem scroll_events_dropped (n : Nat) (s : Controller) (h : s.ticking = true) :
    run s (List.replicate n Event.scroll) = s := by
  induction n with
  | zero => rfl
  | succ n ih =>
      have hstep : step s Event.scroll = s := by simp [step, requestScrollUpdate, h]
      simpa [run, List.replicate_succ, hstep] using ih

/-- With no frame callback scheduled, one or more scroll events schedule exactly one. -/
theorem scroll_events_schedule_one (n : Nat) (s : Controller) (h : s.ticking = false) :
    run s (List.replicate (n + 1) Event.scroll)
      = { s with frames := s.frames + 1, ticking := true } := by
  have hstep : step s Event.scroll = { s with frames := s.frames + 1, ticking := true } := by
    simp [step, requestScrollUpdate, h]
  have := scroll_events_dropped n { s with frames := s.frames + 1, ticking := true } rfl
  simpa [run, List.replicate_succ, hstep] using this

/-- C15: frame throttle.  In every state reachable from initialisation at most one frame
callback is pending.  From a reachable state with none pending (as right after
initialisation or right after a callback has run), any `n ≥ 1` scroll events schedule
exactly one callback; when it runs it performs one `handleScroll` evaluation, and `ticking`
is false and no callback is pending afterwards. -/
theorem frame_throttle (f : Footer) (cs : List String) (es : List Event) (n : Nat)
    (w : Window) (hn : 1 ≤ n) :
    (run (initFooter f cs) es).frames ≤ 1 ∧
    ((run (initFooter f cs) es).frames = 0 →
      (run (run (initFooter f cs) es) (List.replicate n Event.scroll)).frames = 1 ∧
      step (run (run (initFooter f cs) es) (List.replicate n Event.scroll)) (Event.frame w)
        = { handleScroll { run (initFooter f cs) es with ticking := true } w with
            ticking := false } ∧
      (step (run (run (initFooter f cs) es) (List.replicate n Event.scroll))
        (Event.frame w)).ticking = false ∧
      (step (run (run (initFooter f cs) es) (List.replicate n Event.scroll))
        (Event.frame w)).frames = 0) := by
  have hinv : frameInv (run (initFooter f cs) es) :=
    frameInv_run es _ (Or.inr ⟨rfl, rfl⟩)
  generalize run (initFooter f cs) es = s at hinv ⊢
  obtain ⟨m, rfl⟩ : ∃ m, n = m + 1 := ⟨n - 1, by omega⟩
  constructor
  · rcases hinv with ⟨_, h⟩ | ⟨_, h⟩ <;> omega
  · intro h0
    have ht : s.ticking = false := by
      rcases hinv with ⟨_, h⟩ | ⟨h, _⟩
      · omega
      · exact h
    rw [scroll_events_schedule_one m s ht]
    have hstep : step { s with frames := s.frames + 1, ticking := true } (Event.frame w)
        = { handleScroll { s with ticking := true } w with ticking := false } := by
      simp [step, frameCallback, h0]
    refine ⟨by simp [h0], hstep, ?_, ?_⟩
    · rw [hstep]
    · rw [hstep]
      simp [h0]

/-- Witness of C15: three scroll events on the freshly initialised page, then the frame
callback reading offset 200 of the long page. -/
theorem frame_throttle_witness :
    (run (run (initFooter ⟨"", false, "none"⟩ []) []) (List.replicate 3 Event.scroll)).frames
      = 1 ∧
    (step (run (run (initFooter ⟨"", false, "none"⟩ []) []) (List.replicate 3 Event.scroll))
      (Event.frame (longPageAt 200))).ticking = false ∧
    (step (run (run (initFooter ⟨"", false, "none"⟩ []) []) (List.replicate 3 Event.scroll))
      (Event.frame (longPageAt 200))).frames = 0 :=
  have h := (frame_throttle ⟨"", false, "none"⟩ [] [] 3 (longPageAt 200) (by decide)).2
    (by decide)
  ⟨h.1, h.2.2.1, h.2.2.2⟩

/-! ### Auto-hide near the bottom of the page -/

/-- C19: the auto-hide ignores the bottom-of-page override.  On the long page (document
3000, viewport 800) the evaluation at offset 2150 shows the footer and the expiry of the
timer it armed hides it, although the distance from the bottom is still below 100.  In
general the expiry of a live timer hides a visible footer whenever the position it captured
exceeds 100; the distance from the bottom is no input of the expiry. -/
theorem expiry_ignores_bottom :
    ((longPageAt 2150).scrollHeight - currentScrollTop (longPageAt 2150)
        - (longPageAt 2150).innerHeight < 100 ∧
      (run freshPage [Event.scroll, Event.frame (longPageAt 2150)]).isFooterVisible = true ∧
      (run freshPage [Event.scroll, Event.frame (longPageAt 2150),
        Event.timeout ⟨0, 2150⟩]).isFooterVisible = false) ∧
    ∀ (s : Controller) (t : Timer), t ∈ s.timers → s.isFooterVisible = true →
      t.currentScrollTop > 100 →
      (step s (Event.timeout t)).isFooterVisible = false ∧
      (step s (Event.timeout t)).footerTransform = "translateY(200px)" := by
  refine ⟨by decide, ?_⟩
  intro s t ht hv hc
  have hc' : t.currentScrollTop > scrollThreshold := by simpa [scrollThreshold] using hc
  simp [step, ht, timeoutCallback, hv, hc', hideFooter, hiddenTransform]

/-- Witness of C19: the state right after the evaluation at offset 2150 and its timer. -/
theorem expiry_ignores_bottom_witness :
    atBottom2150.isFooterVisible = true ∧
    (step atBottom2150 (Event.timeout ⟨0, 2150⟩)).isFooterVisible = false ∧
    (step atBottom2150 (Event.timeout ⟨0, 2150⟩)).footerTransform = "translateY(200px)" :=
  ⟨by decide,
    expiry_ignores_bottom.2 atBottom2150 ⟨0, 2150⟩ (by decide) (by decide) (by decide)⟩

end DebugFooter

namespace HomepageAnimations

/-- Counterexample to C16 as stated, in both directions.  (a) From the initial state a scroll
down to offset 50 leaves the footer hidden; (b) from the visible footer at offset 600 a
scroll up to offset 500 leaves it visible. -/
theorem direction_alone_does_not_decide :
    (DebugFooter.currentScrollTop (pageAt 50) > (initial []).lastScrollY ∧
      (handleScrollAnimations (initial []) (pageAt 50)).footerVisible = false) ∧
    (DebugFooter.currentScrollTop (pageAt 500) ≤ visibleAt600.lastScrollY ∧
      visibleAt600.footerVisible = true ∧
      (handleScrollAnimations visibleAt600 (pageAt 500)).footerVisible = true) := by
  decide

/-- C16 (amended): for every state of `handleScrollAnimations` and every scroll position,
`footerVisible` is true afterwards when the direction is down and `scrollPosition > 100`,
false afterwards when the direction is up and `scrollPosition < 200`, and unchanged in
every other case. -/
theorem handleScrollAnimations_footerVisible (s : State) (w : DebugFooter.Window) :
    (handleScrollAnimations s w).footerVisible =
      if DebugFooter.currentScrollTop w > s.lastScrollY ∧ DebugFooter.currentScrollTop w > 100
      then true
      else if DebugFooter.currentScrollTop w ≤ s.lastScrollY ∧
          DebugFooter.currentScrollTop w < 200
      then false
      else s.footerVisible := by
  simp only [handleScrollAnimations, scrollDirection]
  cases hv : s.footerVisible <;> split_ifs <;> simp_all <;> omega

end HomepageAnimations

namespace CleanupAnimations

open DebugFooter (startsWith includesChars includes)

/-! ### The mutation observer -/

theorem scrollAnimate_cons : scrollAnimate = 's' :: "croll-animate".data := by decide

theorem scrollAnimate_not_space : ∀ d ∈ scrollAnimate, isSpace d = false := by decide

theorem startsWith_nil (l : List Char) : startsWith l [] = true := by
  cases l <;> rfl

theorem startsWith_cons_cons (c d : Char) (l q : List Char) :
    startsWith (c :: l) (d :: q) = (c == d && startsWith l q) := rfl

theorem ne_of_space_of_not_space (c d : Char) (hc : isSpace c = true)
    (hd : isSpace d = false) : (c == d) = false := by
  cases h : c == d
  · rfl
  · have hcd : c = d := by simpa using h
    rw [hcd, hd] at hc
    exact absurd hc (by decide)

/-- White space cannot begin the literal. -/
theorem startsWith_space_literal (c : Char) (l : List Char) (hc : isSpace c = true) :
    startsWith (c :: l) scrollAnimate = false := by
  rw [scrollAnimate_cons, startsWith_cons_cons,
    ne_of_space_of_not_space c 's' hc (by decide)]
  rfl

/-- What the scan emits from inside a match is empty or begins with white space. -/
theorem startsWith_replaceChars_true (l : List Char) (d : Char) (q : List Char)
    (hd : isSpace d = false) : startsWith (replaceChars true l) (d :: q) = false := by
  induction l with
  | nil => rfl
  | cons c cs ih =>
      simp only [replaceChars]
      split
      · rename_i hc
        rw [startsWith_cons_cons, ne_of_space_of_not_space c d hc hd]
        rfl
      · exact ih

/-- A word without white space that begins the output of the scan begins its input. -/
theorem startsWith_of_replaceChars (l : List Char) :
    ∀ q : List Char, (∀ d ∈ q, isSpace d = false) →
      startsWith (replaceChars false l) q = true → startsWith l q = true := by
  induction l with
  | nil =>
      intro q _ h
      simpa [replaceChars] using h
  | cons c cs ih =>
      intro q hq h
      cases q with
      | nil => rfl
      | cons d q =>
          have hd : isSpace d = false := hq d (List.mem_cons_self d q)
          simp only [replaceChars] at h
          split at h
          · rw [startsWith_replaceChars_true cs d q hd] at h
            exact absurd h (by decide)
          · rw [startsWith_cons_cons, Bool.and_eq_true] at h
            rw [startsWith_cons_cons, Bool.and_eq_true]
            exact ⟨h.1, ih q (fun e he => hq e (List.mem_cons_of_mem d he)) h.2⟩

/-- The output of the scan holds no occurrence of the literal, in either mode. -/
theorem includesChars_replaceChars (l : List Char) :
    ∀ b : Bool, includesChars (replaceChars b l) scrollAnimate = false := by
  induction l with
  | nil => intro b; cases b <;> decide
  | cons c cs ih =>
      intro b
      cases b with
      | true =>
          simp only [replaceChars]
          split
          · rename_i hc
            simp only [includesChars, Bool.or_eq_false_iff]
            exact ⟨startsWith_space_literal c _ hc, ih false⟩
          · exact ih true
      | false =>
          by_cases hm : startsWith (c :: cs) scrollAnimate = true
          · simp only [replaceChars, hm, if_true]
            exact ih true
          · have heq : replaceChars false (c :: cs) = c :: replaceChars false cs := by
              simp [replaceChars, hm]
            rw [heq]
            simp only [includesChars, Bool.or_eq_false_iff]
            refine ⟨?_, ih false⟩
            cases hs : startsWith (c :: replaceChars false cs) scrollAnimate
            · rfl
            · rw [← heq] at hs
              exact absurd
                (startsWith_of_replaceChars (c :: cs) scrollAnimate scrollAnimate_not_space hs)
                hm

/-- Inside a match the scan is the scan resumed at the next white space. -/
theorem replaceChars_true_eq (l : List Char) :
    replaceChars true l = replaceChars false (l.dropWhile (fun d => !isSpace d)) := by
  induction l with
  | nil => rfl
  | cons c cs ih =>
      cases hc : isSpace c
      · simp [replaceChars, List.dropWhile, hc, ih]
      · simp [replaceChars, List.dropWhile, hc, startsWith_space_literal c cs hc]

/-- Dropping a leading word without white space does not move the next white space. -/
theorem dropWhile_drop_word (q : List Char) :
    ∀ l : List Char, (∀ d ∈ q, isSpace d = false) → startsWith l q = true →
      l.dropWhile (fun d => !isSpace d)
        = (l.drop q.length).dropWhile (fun d => !isSpace d) := by
  induction q with
  | nil => intro l _ _; rfl
  | cons d q ih =>
      intro l hq h
      cases l with
      | nil => simp [startsWith] at h
      | cons c cs =>
          rw [startsWith_cons_cons, Bool.and_eq_true] at h
          have hcd : c = d := by simpa using h.1
          have hc : isSpace c = false := hcd ▸ hq d (List.mem_cons_self d q)
          simp only [List.dropWhile, hc, Bool.not_false, List.length_cons, List.drop_succ_cons]
          exact ih cs (fun e he => hq e (List.mem_cons_of_mem d he)) h.2

/-- The scan obeys the reading of `/scroll-animate[^\s]*/g` from left to right: at a match
it resumes after the literal and the run of non-space characters that follows it, and
elsewhere it keeps the character and moves on. -/
theorem replaceChars_unfold (c : Char) (cs : List Char) :
    replaceChars false (c :: cs) =
      if startsWith (c :: cs) scrollAnimate then
        replaceChars false
          (((c :: cs).drop scrollAnimate.length).dropWhile (fun d => !isSpace d))
      else c :: replaceChars false cs := by
  by_cases hm : startsWith (c :: cs) scrollAnimate = true
  · rw [if_pos hm, ← dropWhile_drop_word scrollAnimate (c :: cs) scrollAnimate_not_space hm]
    have hc : isSpace c = false := by
      cases hsp : isSpace c
      · rfl
      · rw [startsWith_space_literal c cs hsp] at hm
        exact absurd hm (by decide)
    simp only [replaceChars, hm, if_true, List.dropWhile, hc, Bool.not_false]
    exact replaceChars_true_eq cs
  · simp [replaceChars, hm]

/-- C17: for every `className` that contains `scroll-animate`, the value written by the
mutation-observer callback, `className.replace(/scroll-animate[^\s]*/g, '')`, contains no
occurrence of `scroll-animate`; the callback run on the mutation it caused itself therefore
rewrites nothing. -/
theorem observer_rewrite_settles (className : String)
    (h : includes className "scroll-animate" = true) :
    observerRewrite className = replaceScrollAnimate className ∧
    includes (replaceScrollAnimate className) "scroll-animate" = false ∧
    observerRewrite (observerRewrite className) = observerRewrite className := by
  have hnone : includes (replaceScrollAnimate className) "scroll-animate" = false :=
    includesChars_replaceChars className.data false
  have hrw : observerRewrite className = replaceScrollAnimate className := by
    simp [observerRewrite, h]
  refine ⟨hrw, hnone, ?_⟩
  rw [hrw]
  simp [observerRewrite, hnone]

/-- Witness of C17: a class list with two animation classes. -/
theorem observer_rewrite_settles_witness :
    includes "hero scroll-animate-up card scroll-animate" "scroll-animate" = true ∧
    observerRewrite "hero scroll-animate-up card scroll-animate"
      = replaceScrollAnimate "hero scroll-animate-up card scroll-animate" ∧
    includes (replaceScrollAnimate "hero scroll-animate-up card scroll-animate")
      "scroll-animate" = false :=
  have h := observer_rewrite_settles "hero scroll-animate-up card scroll-animate" (by decide)
  ⟨by decide, h.1, h.2.1⟩

/-! ### The class cleanup -/

/-- C18, the code at a failing input: on the `className` made of `keep`, a tab and
`scroll-animate`, the element has the class `keep`, which contains none of the four
substrings, and the cleanup writes the empty `className`, so `keep` is lost. -/
theorem cleanup_loses_tab_separated_class :
    classTokens "keep\tscroll-animate" = ["keep", "scroll-animate"] ∧
    keepClass "keep".data = true ∧
    cleanClassName "keep\tscroll-animate" = "" ∧
    "keep" ∉ classTokens (cleanClassName "keep\tscroll-animate") := by
  decide

theorem isAsciiSpace_space : isAsciiSpace ' ' = true := by decide

/-- Where the space is the only ASCII white space, the two ways of splitting agree. -/
theorem splitAsciiSpace_eq_splitSpace (l : List Char)
    (h : ∀ c ∈ l, isAsciiSpace c = true → c = ' ') :
    splitAsciiSpace l = splitSpace l := by
  induction l with
  | nil => rfl
  | cons c cs ih =>
      have ih := ih (fun d hd => h d (List.mem_cons_of_mem c hd))
      by_cases hc : c = ' '
      · simp [splitAsciiSpace, splitSpace, hc, isAsciiSpace_space, ih]
      · have hns : isAsciiSpace c = false := by
          cases hsp : isAsciiSpace c
          · rfl
          · exact absurd (h c (List.mem_cons_self c cs) hsp) hc
        simp [splitAsciiSpace, splitSpace, hc, hns, ih]

/-- The pieces of `split(' ')` are made of characters of the string other than the space. -/
theorem mem_piece_of_splitSpace (l : List Char) :
    ∀ p ∈ splitSpace l, ∀ c ∈ p, c ∈ l ∧ c ≠ ' ' := by
  induction l with
  | nil =>
      intro p hp c hc
      simp only [splitSpace, List.mem_singleton] at hp
      rw [hp] at hc
      exact absurd hc (List.not_mem_nil c)
  | cons d ds ih =>
      intro p hp c hc
      by_cases hd : d = ' '
      · simp only [splitSpace, hd, if_true, List.mem_cons] at hp
        rcases hp with hp | hp
        · rw [hp] at hc
          exact absurd hc (List.not_mem_nil c)
        · exact ⟨List.mem_cons_of_mem d (ih p hp c hc).1, (ih p hp c hc).2⟩
      · simp only [splitSpace, hd, if_false] at hp
        cases hsp : splitSpace ds with
        | nil =>
            rw [hsp] at hp
            simp only [List.mem_singleton] at hp
            rw [hp, List.mem_singleton] at hc
            rw [hc]
            exact ⟨List.mem_cons_self d ds, hd⟩
        | cons q qs =>
            rw [hsp] at hp
            simp only [List.mem_cons] at hp
            rcases hp with hp | hp
            · rw [hp, List.mem_cons] at hc
              rcases hc with hc | hc
              · rw [hc]
                exact ⟨List.mem_cons_self d ds, hd⟩
              · have := ih q (by rw [hsp]; exact List.mem_cons_self q qs) c hc
                exact ⟨List.mem_cons_of_mem d this.1, this.2⟩
            · have := ih p (by rw [hsp]; exact List.mem_cons_of_mem q hp) c hc
              exact ⟨List.mem_cons_of_mem d this.1, this.2⟩

/-- Splitting a word without white space followed by more text. -/
theorem splitAsciiSpace_append (p : List Char) (hp : ∀ c ∈ p, isAsciiSpace c = false)
    (r q : List Char) (qs : List (List Char)) (hr : splitAsciiSpace r = q :: qs) :
    splitAsciiSpace (p ++ r) = (p ++ q) :: qs := by
  induction p with
  | nil => simpa using hr
  | cons c cs ih =>
      have hc : isAsciiSpace c = false := hp c (List.mem_cons_self c cs)
      have ih := ih (fun d hd => hp d (List.mem_cons_of_mem c hd))
      rw [List.cons_append, splitAsciiSpace, ih]
      simp [hc]

/-- Joining words without white space and splitting again gives the words back. -/
theorem splitAsciiSpace_joinSpace (ps : List (List Char))
    (h : ∀ p ∈ ps, ∀ c ∈ p, isAsciiSpace c = false) (hne : ps ≠ []) :
    splitAsciiSpace (joinSpace ps) = ps := by
  induction ps with
  | nil => exact absurd rfl hne
  | cons p qs ih =>
      have hp := h p (List.mem_cons_self p qs)
      cases qs with
      | nil =>
          have := splitAsciiSpace_append p hp [] [] [] rfl
          simpa [joinSpace] using this
      | cons q qs =>
          have ih := ih (fun r hr => h r (List.mem_cons_of_mem p hr)) (List.cons_ne_nil q qs)
          have hr : splitAsciiSpace (' ' :: joinSpace (q :: qs)) = [] :: q :: qs := by
            rw [splitAsciiSpace, ih]
            simp [isAsciiSpace_space]
          have := splitAsciiSpace_append p hp _ _ _ hr
          simpa [joinSpace] using this

/-- Where the space is the only ASCII white space of `className`, the cleanup removes
exactly the problematic classes: the classes of the cleaned `className` are the original
classes that contain none of the four substrings, in their original order. -/
theorem cleanClassName_tokens (className : String)
    (h : ∀ c ∈ className.data, isAsciiSpace c = true → c = ' ') :
    classTokens (cleanClassName className)
      = (classTokens className).filter (fun t => keepClass t.data) := by
  have hpieces : ∀ p ∈ (splitSpace className.data).filter keepClass,
      ∀ c ∈ p, isAsciiSpace c = false := by
    intro p hp c hc
    have hmem := mem_piece_of_splitSpace className.data p (List.mem_filter.mp hp).1 c hc
    cases hsp : isAsciiSpace c
    · rfl
    · exact absurd (h c hmem.1 hsp) hmem.2
  have hsplit : (splitAsciiSpace
      (joinSpace ((splitSpace className.data).filter keepClass))).filter (fun p => !p.isEmpty)
        = ((splitSpace className.data).filter keepClass).filter (fun p => !p.isEmpty) := by
    by_cases hne : (splitSpace className.data).filter keepClass = []
    · rw [hne]; rfl
    · rw [splitAsciiSpace_joinSpace _ hpieces hne]
  unfold classTokens cleanClassName
  rw [hsplit, splitAsciiSpace_eq_splitSpace className.data h, List.filter_map]
  congr 1
  rw [List.filter_filter, List.filter_filter]
  apply List.filter_congr
  intro p _
  simp [Bool.and_comm]

/-- The same at an input: four space-separated classes, two of them animation classes. -/
theorem cleanClassName_tokens_example :
    cleanClassName "card scroll-animate hero fade-in" = "card hero" ∧
    classTokens (cleanClassName "card scroll-animate hero fade-in")
      = (classTokens "card scroll-animate hero fade-in").filter (fun t => keepClass t.data) :=
  ⟨by decide, cleanClassName_tokens "card scroll-animate hero fade-in" (by decide)⟩

end CleanupAnimations
